import Mathlib

/-!
Verification development for the Brave Search MCP server
(rate-limited API client, local-search fallback orchestration,
and tool-dispatch handler).

The TypeScript sources are shallowly embedded:
* JavaScript numbers that the code treats as integers (timestamps,
  counts, offsets, HTTP status codes) are modelled as `Int`/`Nat`;
* `undefined`-able values are modelled as `Option`;
* thrown exceptions become explicit error results;
* the mutable per-endpoint rate-limit map, the `Date.now()` clock and
  the `fetch` network boundary are modelled as explicit state
  (`World`) threaded through each operation.
-/

namespace BraveSearch

/-! ## Small string utilities (structural, kernel-reducible)

Lean's `String.splitOn`/`String.take` are avoided because the claims
need concrete evaluation; these mirror the JavaScript operations
`String.prototype.split`, `String.prototype.substring(0, n)` and
`String.prototype.includes` used by the source. -/

/-- Mirrors JavaScript `string.split(sep)` for a one-character
separator, on the character list of a string. -/
def splitOnChar (c : Char) : List Char → List (List Char)
  | [] => [[]]
  | x :: xs =>
    let r := splitOnChar c xs
    if x = c then [] :: r
    else
      match r with
      | [] => [[x]]
      | y :: ys => (x :: y) :: ys

/-- JavaScript `string.split(sep)` returning strings. -/
def jsSplit (s : String) (c : Char) : List String :=
  (splitOnChar c s.data).map String.mk

/-- JavaScript `string.substring(0, n)` (used by the error-detail
truncation in `callBraveApi`). -/
def jsTake (s : String) (n : Nat) : String :=
  String.mk (s.data.take n)

/-- Does `pat` occur at the start of `l`? -/
def listBeginsWith [DecidableEq α] : List α → List α → Bool
  | [], _ => true
  | _ :: _, [] => false
  | p :: ps, x :: xs => p = x && listBeginsWith ps xs

/-- Does `pat` occur anywhere inside `l`?  Mirrors JavaScript
`string.includes(pat)`. -/
def listHasInside [DecidableEq α] (pat : List α) : List α → Bool
  | [] => pat.isEmpty
  | x :: xs => listBeginsWith pat (x :: xs) || listHasInside pat xs

/-- JavaScript `string.includes(pat)`. -/
def jsIncludes (s pat : String) : Bool :=
  listHasInside pat.data s.data

/-! ## URL model

Only the pieces of the WHATWG `URL` interface that the source uses:
a pathname and an ordered multi-list of decoded search parameters with
`set`, `append`, `get` semantics of `URLSearchParams`. -/

/-- A URL as the source manipulates it: fixed origin, pathname, and an
ordered list of (decoded) query parameters. -/
structure Url where
  origin : String
  pathname : String
  params : List (String × String)
deriving DecidableEq, Repr

/-- Mirrors `URLSearchParams.set`: replace the first binding of `k` (deleting
any later ones), or append if absent. -/
def setParamList : List (String × String) → String → String → List (String × String)
  | [], k, v => [(k, v)]
  | (k', v') :: rest, k, v =>
    if k' = k then (k, v) :: rest.filter (fun p => ¬ p.1 = k)
    else (k', v') :: setParamList rest k v

/-- Mirrors `url.searchParams.set(k, v)`. -/
def paramSet (u : Url) (k v : String) : Url :=
  { u with params := setParamList u.params k v }

/-- Mirrors `url.searchParams.append(k, v)`. -/
def paramAppend (u : Url) (k v : String) : Url :=
  { u with params := u.params ++ [(k, v)] }

/-- Mirrors `url.searchParams.get(k)`: first binding, or null. -/
def paramGet (u : Url) (k : String) : Option String :=
  (u.params.find? (fun p => p.1 = k)).map Prod.snd

/-- Mirrors `getEndpointFromUrl` (apiClient): split the pathname on `/` and
join the last two segments with `/`; `slice(-2)` keeps the whole list
when it is shorter than two. -/
def getEndpointFromUrl (u : Url) : String :=
  let pathSegments := jsSplit u.pathname '/'
  String.intercalate "/" (pathSegments.drop (pathSegments.length - 2))

/-! ## Errors -/

/-- Mirrors `BraveApiError` (apiClient): message plus optional HTTP status and
optional details text. -/
structure BraveApiError where
  message : String
  status : Option Nat
  details : Option String
deriving DecidableEq, Repr

/-- An exception flowing through the dispatch handler: either a
`BraveApiError` (checked with `instanceof` in the catch) or a plain
`Error` with only a message. -/
inductive ToolError where
  | api (e : BraveApiError)
  | generic (message : String)
deriving DecidableEq, Repr

/-- The error thrown by `checkRateLimit`:
`new BraveApiError("Rate limit exceeded: > 1/second", 429)`. -/
def rateLimitExceededError : BraveApiError :=
  { message := "Rate limit exceeded: > 1/second", status := some 429, details := none }

/-! ## Rate limiter -/

/-- One entry of the `endpointTrackers` map. -/
structure Tracker where
  lastCallTime : Int
  callCount : Nat
deriving DecidableEq, Repr

/-- The `endpointTrackers` map, as an association list keyed by the
endpoint identifier. -/
abbrev Trackers := List (String × Tracker)

/-- Mirrors `endpointTrackers.get(endpoint)`. -/
def lookupTracker (ts : Trackers) (e : String) : Option Tracker :=
  (ts.find? (fun p => p.1 = e)).map Prod.snd

/-- Mirrors `endpointTrackers.set(endpoint, t)`: replace in place, or append
on first use. -/
def setTracker : Trackers → String → Tracker → Trackers
  | [], e, t => [(e, t)]
  | (e', t') :: rest, e, t =>
    if e' = e then (e, t) :: rest
    else (e', t') :: setTracker rest e t

/-- The early-return condition at the top of `checkRateLimit`:
`process.env.NODE_ENV === "test" && !isRateLimitTest`, where
`isRateLimitTest` requires the query to contain `req`. -/
def rateLimitBypassed (nodeEnv query : String) : Bool :=
  nodeEnv = "test" && !(nodeEnv = "test" && jsIncludes query "req")

/-- Mirrors `checkRateLimit` (apiClient).  `nodeEnv` is `process.env.NODE_ENV`,
`query` the URL's `q` parameter (defaulted to `""`), `clock` the stream
of `Date.now()` readings (the source reads the clock twice in quick
succession when recording; both reads are modelled as the same
instant).  Returns the thrown-or-updated-trackers outcome together
with the remaining clock. -/
def checkRateLimit (nodeEnv query endpoint : String) (clock : List Int)
    (ts : Trackers) : Except BraveApiError Trackers × List Int :=
  if rateLimitBypassed nodeEnv query then
    (.ok ts, clock)
  else
    let now := clock.headD 0
    let clock' := clock.tail
    let ts₁ := if (lookupTracker ts endpoint).isSome then ts
               else setTracker ts endpoint { lastCallTime := 0, callCount := 0 }
    let tracker := (lookupTracker ts₁ endpoint).getD { lastCallTime := 0, callCount := 0 }
    if now - tracker.lastCallTime < 1000 then
      (.error rateLimitExceededError, clock')
    else
      (.ok (setTracker ts₁ endpoint
            { lastCallTime := now, callCount := tracker.callCount + 1 }), clock')

/-! ## Response data model (apiClient interfaces)

TypeScript optional fields become `Option`; the two-level optionality
of `web?.results?` is kept. -/

/-- One entry of `BraveWeb.web.results`. -/
structure WebResult where
  title : String
  description : String
  url : String
  language : Option String := none
  published : Option String := none
  rank : Option Int := none
deriving DecidableEq, Repr

/-- Mirrors `BraveWeb.web`. -/
structure WebBlock where
  results : Option (List WebResult)
deriving DecidableEq, Repr

/-- One entry of `BraveWeb.locations.results`.  The interface declares
`id` required, but `performLocalSearch` defensively filters null ids,
so it is modelled as optional. -/
structure LocationResult where
  id : Option String
  title : Option String := none
deriving DecidableEq, Repr

/-- Mirrors `BraveWeb.locations`. -/
structure LocBlock where
  results : Option (List LocationResult)
deriving DecidableEq, Repr

/-- Mirrors `BraveWeb`. -/
structure BraveWeb where
  web : Option WebBlock := none
  locations : Option LocBlock := none
deriving DecidableEq, Repr

/-- Mirrors `BraveLocation.address`. -/
structure PoiAddress where
  streetAddress : Option String := none
  addressLocality : Option String := none
  addressRegion : Option String := none
  postalCode : Option String := none
deriving DecidableEq, Repr

/-- Mirrors `BraveLocation.rating`.  `ratingValue` is modelled as `Int`
(the formatter only prints it). -/
structure PoiRating where
  ratingValue : Option Int := none
  ratingCount : Option Int := none
deriving DecidableEq, Repr

/-- Mirrors `BraveLocation` (a POI record; `coordinates` is unused by the
orchestration layer and omitted). -/
structure BraveLocation where
  id : String
  name : String
  address : PoiAddress
  phone : Option String := none
  rating : Option PoiRating := none
  openingHours : Option (List String) := none
  priceRange : Option String := none
deriving DecidableEq, Repr

/-- Mirrors `BravePoiResponse`. -/
structure BravePoiResponse where
  results : List BraveLocation
deriving DecidableEq, Repr

/-- Mirrors `BraveDescription`: the `{[id: string]: string}` map as an
association list. -/
structure BraveDescription where
  descriptions : List (String × String)
deriving DecidableEq, Repr

/-- The body of a successful upstream JSON response, tagged by shape.
The source casts parsed JSON without validation, so each typed fetch
function just projects its expected shape out. -/
inductive ApiData where
  | web (d : BraveWeb)
  | pois (d : BravePoiResponse)
  | descs (d : BraveDescription)
deriving DecidableEq, Repr

/-- What the `fetch` boundary does for one request. -/
inductive FetchOutcome where
  | success (d : ApiData)
  | httpError (status : Nat) (statusText : String) (body : String)
  | networkError (message : String)
deriving DecidableEq, Repr

/-! ## The world state threaded through the client layer -/

/-- Explicit state for the effectful parts of the source: the process
environment, the mutable tracker map, the stream of `Date.now()`
readings, the queue of pending network outcomes, and a log of every
URL actually handed to `fetch` (in order). -/
structure World where
  nodeEnv : String
  trackers : Trackers
  clock : List Int
  oracle : List FetchOutcome
  fetchLog : List Url
deriving DecidableEq, Repr

/-- Outcome of one async operation: a value or a thrown error, each
with the world as of that moment. -/
inductive Step (α : Type) where
  | ok (a : α) (w : World)
  | err (e : ToolError) (w : World)
deriving DecidableEq, Repr

/-- The world a step ended in. -/
def Step.world : Step α → World
  | .ok _ w => w
  | .err _ w => w

/-- Sequencing that mirrors `await` with exception propagation. -/
def Step.bind (s : Step α) (f : α → World → Step β) : Step β :=
  match s with
  | .ok a w => f a w
  | .err e w => .err e w

/-- Result mapping on the success branch. -/
def Step.map (f : α → β) : Step α → Step β
  | .ok a w => .ok (f a) w
  | .err e w => .err e w

/-! ## Core API call (`callBraveApi`) -/

/-- The `fetch` part of `callBraveApi`: consume the next pending
network outcome, log the URL, and translate HTTP / transport failures
into `BraveApiError`s exactly as the source's `try`/`catch` does. -/
def doFetch (u : Url) (w : World) : Step ApiData :=
  let outcome := w.oracle.headD (.networkError "fetch failed")
  let w' := { w with oracle := w.oracle.tail, fetchLog := w.fetchLog ++ [u] }
  match outcome with
  | .success d => .ok d w'
  | .httpError status statusText body =>
      .err (.api { message := "API request failed", status := some status,
                   details := some (statusText ++ ": " ++ jsTake body 200 ++ "...") }) w'
  | .networkError msg =>
      .err (.api { message := "Network error calling Brave API: " ++ msg,
                   status := none, details := none }) w'

/-- Mirrors `callBraveApi`: derive the endpoint id, run the rate limiter
(which reads the clock unless the test bypass fires), then fetch. -/
def callBraveApi (u : Url) (w : World) : Step ApiData :=
  let endpoint := getEndpointFromUrl u
  let query := (paramGet u "q").getD ""
  match checkRateLimit w.nodeEnv query endpoint w.clock w.trackers with
  | (.error e, clock') => .err (.api e) { w with clock := clock' }
  | (.ok ts, clock') => doFetch u { w with trackers := ts, clock := clock' }

/-- Project the `BraveWeb` shape out of a parsed body (the source's
unchecked `as T` cast; a mismatched body reads as all-absent fields). -/
def ApiData.asWeb : ApiData → BraveWeb
  | .web d => d
  | _ => {}

/-- Project the `BravePoiResponse` shape out of a parsed body. -/
def ApiData.asPois : ApiData → BravePoiResponse
  | .pois d => d
  | _ => ⟨[]⟩

/-- Project the `BraveDescription` shape out of a parsed body. -/
def ApiData.asDescs : ApiData → BraveDescription
  | .descs d => d
  | _ => ⟨[]⟩

/-! ## Specific endpoint functions -/

/-- The URL built by `fetchWebSearch`.  `count` / `offset` are `none`
when the caller passed `undefined` (or any non-number / NaN). -/
def fetchWebSearchUrl (query : String) (count offset : Option Int) : Url :=
  let u : Url := { origin := "https://api.search.brave.com",
                   pathname := "/res/v1/web/search", params := [] }
  let u := paramSet u "q" query
  let u := match count with
    | some c => paramSet u "count" (toString (min c 20))
    | none => u
  let u := match offset with
    | some o => paramSet u "offset" (toString (max 0 (min o 9)))
    | none => u
  paramSet u "result_filter" "web"

/-- Mirrors `fetchWebSearch`. -/
def fetchWebSearch (query : String) (count offset : Option Int) (w : World) :
    Step BraveWeb :=
  (callBraveApi (fetchWebSearchUrl query count offset) w).map ApiData.asWeb

/-- The URL built by `fetchInitialLocalSearch`. -/
def fetchInitialLocalSearchUrl (query : String) (count : Int) : Url :=
  let u : Url := { origin := "https://api.search.brave.com",
                   pathname := "/res/v1/web/search", params := [] }
  let u := paramSet u "q" query
  let u := paramSet u "search_lang" "en"
  let u := paramSet u "result_filter" "locations"
  paramSet u "count" (toString (min count 20))

/-- Mirrors `fetchInitialLocalSearch`. -/
def fetchInitialLocalSearch (query : String) (count : Int) (w : World) :
    Step BraveWeb :=
  (callBraveApi (fetchInitialLocalSearchUrl query count) w).map ApiData.asWeb

/-- JavaScript truthiness of an id that may be `null`/`undefined`
(`none`) or a string (`""` is falsy): the `filter(Boolean)` test. -/
def truthyId : Option String → Bool
  | some s => s ≠ ""
  | none => false

/-- The URL built by `fetchPoiDetails` for a non-empty id list:
`ids.filter(Boolean).forEach(id => url.searchParams.append('ids', id))`. -/
def poiDetailsUrl (ids : List (Option String)) : Url :=
  (ids.filter truthyId).foldl (fun u i => paramAppend u "ids" (i.getD ""))
    { origin := "https://api.search.brave.com",
      pathname := "/res/v1/local/pois", params := [] }

/-- Mirrors `fetchPoiDetails`.  Ids are `Option String` because callers can
pass `null`/`undefined` entries (the repository's tests do). -/
def fetchPoiDetails (ids : List (Option String)) (w : World) :
    Step BravePoiResponse :=
  if ids.length = 0 then .ok ⟨[]⟩ w
  else (callBraveApi (poiDetailsUrl ids) w).map ApiData.asPois

/-- The URL built by `fetchPoiDescriptions` for a non-empty id list. -/
def poiDescriptionsUrl (ids : List (Option String)) : Url :=
  (ids.filter truthyId).foldl (fun u i => paramAppend u "ids" (i.getD ""))
    { origin := "https://api.search.brave.com",
      pathname := "/res/v1/local/descriptions", params := [] }

/-- Mirrors `fetchPoiDescriptions`. -/
def fetchPoiDescriptions (ids : List (Option String)) (w : World) :
    Step BraveDescription :=
  if ids.length = 0 then .ok ⟨[]⟩ w
  else (callBraveApi (poiDescriptionsUrl ids) w).map ApiData.asDescs

/-! ## Formatters (index.ts helpers) -/

/-- JavaScript `s || 'N/A'` on a string (empty string is falsy). -/
def orNA (s : String) : String := if s = "" then "N/A" else s

/-- Mirrors `formatWebResults`. -/
def formatWebResults (data : BraveWeb) : String :=
  let results := ((data.web.bind WebBlock.results).getD []).map fun r =>
    (orNA r.title, orNA r.description, orNA r.url)
  if results.length = 0 then "No web results found."
  else
    String.intercalate "\n\n" (results.map fun r =>
      "Title: " ++ r.1 ++ "\nDescription: " ++ r.2.1 ++ "\nURL: " ++ r.2.2)

/-- Mirrors `descData.descriptions[poi.id]`. -/
def lookupDescription (d : BraveDescription) (id : String) : Option String :=
  (d.descriptions.find? (fun p => p.1 = id)).map Prod.snd

/-- The per-POI block of `formatLocalResults` (template literal with a
trailing newline). -/
def formatPoi (poi : BraveLocation) (descData : BraveDescription) : String :=
  let addressJoined := String.intercalate ", "
    (([poi.address.streetAddress, poi.address.addressLocality,
       poi.address.addressRegion, poi.address.postalCode].filterMap id).filter
      (fun s => s ≠ ""))
  let address := if addressJoined = "" then "N/A" else addressJoined
  let ratingValue := match poi.rating.bind PoiRating.ratingValue with
    | some v => toString v
    | none => "N/A"
  let ratingCount := match poi.rating.bind PoiRating.ratingCount with
    | some c => toString c
    | none => "0"
  let hoursJoined := String.intercalate ", " (poi.openingHours.getD [])
  let hours := if hoursJoined = "" then "N/A" else hoursJoined
  let description :=
    match lookupDescription descData poi.id with
    | some d => if d = "" then "No description available." else d
    | none => "No description available."
  "Name: " ++ orNA poi.name ++
  "\nAddress: " ++ address ++
  "\nPhone: " ++ orNA (poi.phone.getD "") ++
  "\nRating: " ++ ratingValue ++ " (" ++ ratingCount ++ " reviews)" ++
  "\nPrice Range: " ++ orNA (poi.priceRange.getD "") ++
  "\nHours: " ++ hours ++
  "\nDescription: " ++ description ++ "\n"

/-- Mirrors `formatLocalResults`. -/
def formatLocalResults (poisData : BravePoiResponse) (descData : BraveDescription) :
    String :=
  if poisData.results.length = 0 then "No local results found."
  else
    String.intercalate "\n---\n" (poisData.results.map (formatPoi · descData))

/-! ## Orchestration layer (index.ts) -/

/-- Mirrors `performWebSearch` (callers always supply numeric `count`/`offset`,
the TS parameter defaults being applied at the call sites modelled
here). -/
def performWebSearch (query : String) (count offset : Int) (w : World) :
    Step String :=
  (fetchWebSearch query (some count) (some offset) w).map formatWebResults

/-- Mirrors `webData.locations?.results?.map(r => r.id).filter(id != null) || []`. -/
def extractLocationIds (d : BraveWeb) : List String :=
  ((d.locations.bind LocBlock.results).getD []).filterMap LocationResult.id

/-- Mirrors `performLocalSearch`: initial location-filtered search, id
extraction, web-search fallback on zero ids, POI enrichment wrapped in
`try`/`catch` with web-search fallback on any failure. -/
def performLocalSearch (query : String) (count : Int) (w : World) : Step String :=
  match fetchInitialLocalSearch query count w with
  | .err e w₁ => .err e w₁
  | .ok webData w₁ =>
    let locationIds := extractLocationIds webData
    if locationIds.length = 0 then
      performWebSearch query count 0 w₁
    else
      match fetchPoiDetails (locationIds.map some) w₁ with
      | .err _ w₂ => performWebSearch query count 0 w₂
      | .ok poisData w₂ =>
        match fetchPoiDescriptions (locationIds.map some) w₂ with
        | .err _ w₃ => performWebSearch query count 0 w₃
        | .ok descriptionsData w₃ =>
            .ok (formatLocalResults poisData descriptionsData) w₃

/-- Mirrors `performPoiDetails`. -/
def performPoiDetails (ids : List String) (w : World) : Step String :=
  if ids.length = 0 then .ok "No IDs provided to fetch details." w
  else
    (fetchPoiDetails (ids.map some) w).map (fun pois => formatLocalResults pois ⟨[]⟩)

/-- Mirrors `performPoiDescriptions`. -/
def performPoiDescriptions (ids : List String) (w : World) : Step String :=
  if ids.length = 0 then .ok "No IDs provided to fetch descriptions." w
  else
    match fetchPoiDescriptions (ids.map some) w with
    | .err e w' => .err e w'
    | .ok d w' =>
      if d.descriptions.length = 0 then
        .ok "No descriptions found for the provided IDs." w'
      else
        .ok (String.intercalate "\n\n" (d.descriptions.map fun p =>
          "ID: " ++ p.1 ++ "\nDescription: " ++ p.2)) w'

/-! ## Tool arguments (tools.ts) -/

/-- A JSON-ish value as received in `request.params.arguments`
(`undefined` is `Option.none` one level up; JS numbers are modelled as
integers). -/
inductive JsonVal where
  | nullv
  | boolv (b : Bool)
  | num (n : Int)
  | str (s : String)
  | arr (elems : List JsonVal)
  | obj (fields : List (String × JsonVal))

/-- Property lookup on an object (JS `args[k]`; `none` ≙ `undefined`). -/
def objGet : JsonVal → String → Option JsonVal
  | .obj fields, k => (fields.find? (fun p => p.1 = k)).map Prod.snd
  | _, _ => none

/-- JS `k in args` for the shapes the validators meet. -/
def hasKey (v : JsonVal) (k : String) : Bool := (objGet v k).isSome

/-- JS `typeof v === "object"` (true for objects, arrays and null). -/
def isJsObject : JsonVal → Bool
  | .obj _ => true
  | .arr _ => true
  | .nullv => true
  | _ => false

/-- JS `v !== null`. -/
def isNotNull : JsonVal → Bool
  | .nullv => false
  | _ => true

/-- Mirrors `typeof x === 'string'` on a possibly-undefined property. -/
def isStrVal : Option JsonVal → Bool
  | some (.str _) => true
  | _ => false

/-- Mirrors `typeof x === 'number'` on a possibly-undefined property. -/
def isNumVal : Option JsonVal → Bool
  | some (.num _) => true
  | _ => false

/-- Mirrors `isBraveWebSearchArgs` (tools.ts). -/
def isBraveWebSearchArgs (args : Option JsonVal) : Bool :=
  match args with
  | none => false
  | some v =>
    isJsObject v && isNotNull v && hasKey v "query" && isStrVal (objGet v "query")
    && ((objGet v "count").isNone || isNumVal (objGet v "count"))
    && ((objGet v "offset").isNone || isNumVal (objGet v "offset"))

/-- Mirrors `isBraveLocalSearchArgs` (tools.ts). -/
def isBraveLocalSearchArgs (args : Option JsonVal) : Bool :=
  match args with
  | none => false
  | some v =>
    isJsObject v && isNotNull v && hasKey v "query" && isStrVal (objGet v "query")
    && ((objGet v "count").isNone || isNumVal (objGet v "count"))

/-- Mirrors `Array.isArray(x) && x.every(id => typeof id === 'string')` on a
possibly-undefined property. -/
def isStrArrVal : Option JsonVal → Bool
  | some (.arr es) => es.all (fun e => match e with | .str _ => true | _ => false)
  | _ => false

/-- Mirrors `isBravePoiDetailsArgs` (tools.ts). -/
def isBravePoiDetailsArgs (args : Option JsonVal) : Bool :=
  match args with
  | none => false
  | some v =>
    isJsObject v && isNotNull v && hasKey v "ids" && isStrArrVal (objGet v "ids")

/-- Mirrors `isBravePoiDescriptionsArgs` (tools.ts; same shape check). -/
def isBravePoiDescriptionsArgs (args : Option JsonVal) : Bool :=
  isBravePoiDetailsArgs args

/-! ## Dispatch handler (index.ts `callToolHandler`) -/

/-- Destructuring `const \x7b query \x7d = args` after validation. -/
def strField (args : Option JsonVal) (k : String) : String :=
  match args.bind (objGet · k) with
  | some (.str s) => s
  | _ => ""

/-- Destructuring `const \x7b count = d \x7d = args` after validation. -/
def numFieldD (args : Option JsonVal) (k : String) (d : Int) : Int :=
  match args.bind (objGet · k) with
  | some (.num n) => n
  | _ => d

/-- Destructuring `const \x7b ids \x7d = args` after validation. -/
def strArrField (args : Option JsonVal) (k : String) : List String :=
  match args.bind (objGet · k) with
  | some (.arr es) => es.filterMap (fun e => match e with | .str s => some s | _ => none)
  | _ => []

/-- The `switch`/`throw` body of `callToolHandler`: route the tool
name, validate, run the orchestration function; a thrown `Error`
becomes a `.generic` result. -/
def dispatchTool (name : String) (args : Option JsonVal) (w : World) : Step String :=
  if name = "brave_web_search" then
    if !isBraveWebSearchArgs args then
      .err (.generic ("Invalid arguments for tool \"" ++ name ++
        "\". Expected: \x7b query: string, count?: number, offset?: number \x7d")) w
    else
      performWebSearch (strField args "query") (numFieldD args "count" 10)
        (numFieldD args "offset" 0) w
  else if name = "brave_local_search" then
    if !isBraveLocalSearchArgs args then
      .err (.generic ("Invalid arguments for tool \"" ++ name ++
        "\". Expected: \x7b query: string, count?: number \x7d")) w
    else
      performLocalSearch (strField args "query") (numFieldD args "count" 5) w
  else if name = "brave_poi_details" then
    if !isBravePoiDetailsArgs args then
      .err (.generic ("Invalid arguments for tool \"" ++ name ++
        "\". Expected: \x7b ids: string[] \x7d")) w
    else
      performPoiDetails (strArrField args "ids") w
  else if name = "brave_poi_descriptions" then
    if !isBravePoiDescriptionsArgs args then
      .err (.generic ("Invalid arguments for tool \"" ++ name ++
        "\". Expected: \x7b ids: string[] \x7d")) w
    else
      performPoiDescriptions (strArrField args "ids") w
  else
    .err (.generic ("Unknown tool requested: " ++ name)) w

/-- The `catch` clause's error-message formatting: `BraveApiError`
(checked by `instanceof`) vs. any other error; note `error.details ?`
treats an empty details string as falsy. -/
def errorText : ToolError → String
  | .api e =>
    "Brave API Error (" ++
      (match e.status with | some s => toString s | none => "N/A") ++ "): " ++
      e.message ++
      (match e.details with
       | some d => if d = "" then "" else " - " ++ d
       | none => "")
  | .generic msg => "Internal Server Error: " ++ msg

/-- The `\x7b content: [\x7b type: "text", text \x7d], isError \x7d`
response envelope (each content entry is a text block, kept as its
text). -/
structure ToolResponse where
  content : List String
  isError : Bool
deriving DecidableEq, Repr

/-- Mirrors `callToolHandler` (index.ts): run the dispatch body inside
`try`/`catch` and wrap the outcome into the response envelope. -/
def callToolHandler (name : String) (args : Option JsonVal) (w : World) :
    ToolResponse × World :=
  match dispatchTool name args w with
  | .ok results w' => ({ content := [results], isError := false }, w')
  | .err e w' => ({ content := [errorText e], isError := true }, w')

/-! ## Shared lemmas -/

theorem lookupTracker_setTracker_self (ts : Trackers) (e : String) (t : Tracker) :
    lookupTracker (setTracker ts e t) e = some t := by
  induction ts with
  | nil => simp [setTracker, lookupTracker]
  | cons p rest ih =>
    rcases p with ⟨e', t'⟩
    by_cases h : e' = e
    · simp [setTracker, lookupTracker, h]
    · simpa [setTracker, lookupTracker, h] using ih

theorem setTracker_overwrite (ts : Trackers) (e : String) (t₀ t : Tracker) :
    setTracker (setTracker ts e t₀) e t = setTracker ts e t := by
  induction ts with
  | nil => simp [setTracker]
  | cons p rest ih =>
    rcases p with ⟨e', t'⟩
    by_cases h : e' = e
    · simp [setTracker, h]
    · simp [setTracker, h, ih]

theorem Step.world_map (f : α → β) (s : Step α) :
    (s.map f).world = s.world := by
  cases s <;> rfl

theorem doFetch_world (u : Url) (w : World) :
    (doFetch u w).world =
      { w with oracle := w.oracle.tail, fetchLog := w.fetchLog ++ [u] } := by
  unfold doFetch
  rcases w.oracle.headD (.networkError "fetch failed") with d | ⟨st, stext, body⟩ | m <;> rfl

theorem callBraveApi_fetchLog (u : Url) (w : World) :
    (callBraveApi u w).world.fetchLog = w.fetchLog ∨
    (callBraveApi u w).world.fetchLog = w.fetchLog ++ [u] := by
  unfold callBraveApi
  rcases h : checkRateLimit w.nodeEnv ((paramGet u "q").getD "")
      (getEndpointFromUrl u) w.clock w.trackers with ⟨e | ts, clock'⟩ <;>
    simp only [h]
  · exact Or.inl rfl
  · right
    rw [doFetch_world]

theorem performWebSearch_fetchLog (query : String) (count offset : Int) (w : World) :
    (performWebSearch query count offset w).world.fetchLog = w.fetchLog ∨
    (performWebSearch query count offset w).world.fetchLog =
      w.fetchLog ++ [fetchWebSearchUrl query (some count) (some offset)] := by
  unfold performWebSearch fetchWebSearch
  rw [Step.world_map, Step.world_map]
  exact callBraveApi_fetchLog _ w

/-- Mirrors `paramSet` never touches the pathname. -/
theorem paramSet_pathname (u : Url) (k v : String) :
    (paramSet u k v).pathname = u.pathname := rfl

theorem fetchWebSearchUrl_pathname (query : String) (count offset : Option Int) :
    (fetchWebSearchUrl query count offset).pathname = "/res/v1/web/search" := by
  rcases count with _ | c <;> rcases offset with _ | o <;> rfl

theorem getEndpointFromUrl_congr {u v : Url} (h : u.pathname = v.pathname) :
    getEndpointFromUrl u = getEndpointFromUrl v := by
  unfold getEndpointFromUrl
  rw [h]

theorem getEndpointFromUrl_fetchWebSearchUrl (query : String) (count offset : Option Int) :
    getEndpointFromUrl (fetchWebSearchUrl query count offset) = "web/search" := by
  have h : getEndpointFromUrl (fetchWebSearchUrl query count offset) =
      getEndpointFromUrl { origin := "", pathname := "/res/v1/web/search", params := [] } :=
    getEndpointFromUrl_congr (by rw [fetchWebSearchUrl_pathname])
  rw [h]
  decide

theorem fetchInitialLocalSearchUrl_pathname (query : String) (count : Int) :
    (fetchInitialLocalSearchUrl query count).pathname = "/res/v1/web/search" := rfl

theorem getEndpointFromUrl_fetchInitialLocalSearchUrl (query : String) (count : Int) :
    getEndpointFromUrl (fetchInitialLocalSearchUrl query count) = "web/search" := by
  have h : getEndpointFromUrl (fetchInitialLocalSearchUrl query count) =
      getEndpointFromUrl { origin := "", pathname := "/res/v1/web/search", params := [] } :=
    getEndpointFromUrl_congr rfl
  rw [h]
  decide

theorem paramGet_fetchWebSearchUrl_q (query : String) (count offset : Option Int) :
    paramGet (fetchWebSearchUrl query count offset) "q" = some query := by
  rcases count with _ | c <;> rcases offset with _ | o <;>
    simp [fetchWebSearchUrl, paramSet, setParamList, paramGet, List.find?]

theorem paramGet_fetchWebSearchUrl_filter (query : String) (count offset : Option Int) :
    paramGet (fetchWebSearchUrl query count offset) "result_filter" = some "web" := by
  rcases count with _ | c <;> rcases offset with _ | o <;>
    simp [fetchWebSearchUrl, paramSet, setParamList, paramGet, List.find?]

theorem paramGet_fetchWebSearchUrl_count (query : String) (count offset : Option Int) :
    paramGet (fetchWebSearchUrl query count offset) "count" =
      count.map (fun c => toString (min c 20)) := by
  rcases count with _ | c <;> rcases offset with _ | o <;>
    simp [fetchWebSearchUrl, paramSet, setParamList, paramGet, List.find?]

theorem paramGet_fetchWebSearchUrl_offset (query : String) (count offset : Option Int) :
    paramGet (fetchWebSearchUrl query count offset) "offset" =
      offset.map (fun o => toString (max 0 (min o 9))) := by
  rcases count with _ | c <;> rcases offset with _ | o <;>
    simp [fetchWebSearchUrl, paramSet, setParamList, paramGet, List.find?]

theorem paramGet_fetchInitialLocalSearchUrl_q (query : String) (count : Int) :
    paramGet (fetchInitialLocalSearchUrl query count) "q" = some query := by
  simp [fetchInitialLocalSearchUrl, paramSet, setParamList, paramGet, List.find?]

/-- One-equation characterization of `checkRateLimit` when the test
bypass is inactive: check against the (lazily initialized) tracker,
then either throw or commit the update. -/
theorem checkRateLimit_spec (nodeEnv query endpoint : String) (now : Int)
    (rest : List Int) (ts : Trackers)
    (h : rateLimitBypassed nodeEnv query = false) :
    checkRateLimit nodeEnv query endpoint (now :: rest) ts =
      if now - ((lookupTracker ts endpoint).getD ⟨0, 0⟩).lastCallTime < 1000 then
        (.error rateLimitExceededError, rest)
      else
        (.ok (setTracker ts endpoint
          ⟨now, ((lookupTracker ts endpoint).getD ⟨0, 0⟩).callCount + 1⟩), rest) := by
  unfold checkRateLimit
  rw [h]
  rcases hl : lookupTracker ts endpoint with _ | t <;>
    simp [hl, lookupTracker_setTracker_self, setTracker_overwrite]

/-- A web search whose rate check runs (no bypass) and fails is
rejected before any fetch: the clock tick is consumed, nothing else
changes. -/
theorem performWebSearch_rateLimited (query : String) (count offset : Int)
    (w : World) (t : Int) (rest : List Int)
    (h1 : rateLimitBypassed w.nodeEnv query = false)
    (h2 : w.clock = t :: rest)
    (h3 : t - ((lookupTracker w.trackers "web/search").getD ⟨0, 0⟩).lastCallTime < 1000) :
    performWebSearch query count offset w =
      .err (.api rateLimitExceededError) { w with clock := rest } := by
  unfold performWebSearch fetchWebSearch callBraveApi
  rw [paramGet_fetchWebSearchUrl_q, getEndpointFromUrl_fetchWebSearchUrl]
  simp only [Option.getD_some, h2]
  rw [checkRateLimit_spec _ _ _ _ _ _ h1, if_pos h3]
  rfl

/-- Under the repository's test bypass, a web search always reaches
`fetch` exactly once with the built URL. -/
theorem performWebSearch_test_fetchLog (query : String) (count offset : Int)
    (w : World) (h1 : w.nodeEnv = "test") (h2 : jsIncludes query "req" = false) :
    (performWebSearch query count offset w).world.fetchLog =
      w.fetchLog ++ [fetchWebSearchUrl query (some count) (some offset)] := by
  unfold performWebSearch fetchWebSearch callBraveApi
  rw [Step.world_map, Step.world_map, paramGet_fetchWebSearchUrl_q]
  simp only [Option.getD_some]
  have hb : rateLimitBypassed w.nodeEnv query = true := by
    simp [rateLimitBypassed, h1, h2]
  unfold checkRateLimit
  rw [hb]
  simp [doFetch_world]

/-- Folding `paramAppend` over a list appends one `ids` binding per
element, in order. -/
theorem foldl_paramAppend_params (f : Option String → String)
    (l : List (Option String)) (u : Url) :
    (l.foldl (fun u i => paramAppend u "ids" (f i)) u).params =
      u.params ++ l.map (fun i => ("ids", f i)) := by
  induction l generalizing u with
  | nil => simp
  | cons x xs ih =>
    rw [List.foldl_cons, ih]
    simp [paramAppend]

/-- Lazy initialization followed by the commit collapses to one zero-id
fallback equation: a successful initial search with zero extracted ids
makes `performLocalSearch` continue as `performWebSearch query count 0`
from the post-search world. -/
theorem performLocalSearch_zero_ids (query : String) (count : Int) (w : World)
    (d : BraveWeb) (w₁ : World)
    (hinit : fetchInitialLocalSearch query count w = .ok d w₁)
    (hids : extractLocationIds d = []) :
    performLocalSearch query count w = performWebSearch query count 0 w₁ := by
  simp [performLocalSearch, hinit, hids]

/-- A failing POI-details fetch makes `performLocalSearch` continue as
the web-search fallback from the post-failure world. -/
theorem performLocalSearch_details_err (query : String) (count : Int) (w : World)
    (d : BraveWeb) (w₁ : World) (e : ToolError) (w₂ : World)
    (hinit : fetchInitialLocalSearch query count w = .ok d w₁)
    (hne : extractLocationIds d ≠ [])
    (hdet : fetchPoiDetails ((extractLocationIds d).map some) w₁ = .err e w₂) :
    performLocalSearch query count w = performWebSearch query count 0 w₂ := by
  have hif : ¬ (extractLocationIds d).length = 0 := by
    simpa [List.length_eq_zero] using hne
  simp [performLocalSearch, hinit, hif, hdet]

/-- A failing POI-descriptions fetch (after successful details) makes
`performLocalSearch` continue as the web-search fallback from the
post-failure world. -/
theorem performLocalSearch_descs_err (query : String) (count : Int) (w : World)
    (d : BraveWeb) (w₁ : World) (p : BravePoiResponse) (w₂ : World)
    (e : ToolError) (w₃ : World)
    (hinit : fetchInitialLocalSearch query count w = .ok d w₁)
    (hne : extractLocationIds d ≠ [])
    (hdet : fetchPoiDetails ((extractLocationIds d).map some) w₁ = .ok p w₂)
    (hdesc : fetchPoiDescriptions ((extractLocationIds d).map some) w₂ = .err e w₃) :
    performLocalSearch query count w = performWebSearch query count 0 w₃ := by
  have hif : ¬ (extractLocationIds d).length = 0 := by
    simpa [List.length_eq_zero] using hne
  simp [performLocalSearch, hinit, hif, hdet, hdesc]

/-- String concatenation is associative (used to normalize literal
prefixes of error texts). -/
theorem string_append_assoc (a b c : String) : a ++ b ++ c = a ++ (b ++ c) := by
  rcases a with ⟨la⟩
  rcases b with ⟨lb⟩
  rcases c with ⟨lc⟩
  exact congrArg String.mk (List.append_assoc la lb lc)

/-- A quiet world shared by the concrete witnesses below. -/
def sampleWorld : World :=
  { nodeEnv := "production", trackers := [], clock := [], oracle := [], fetchLog := [] }

/-! ## Claims -/

/-- C1 (counterexample to the claim as stated): in the `NODE_ENV =
"test"` bypass (query without `req`), `checkRateLimit` permits a call
whose `now − lastCallTime` delta is below 1000 ms and records nothing
— so the rejection condition is not "exactly when" the delta is small. -/
theorem checkRateLimit_test_bypass_counterexample :
    checkRateLimit "test" "pizza" "web/search" [500] [] = (.ok [], [500])
    ∧ (500 : Int) - ((lookupTracker ([] : Trackers) "web/search").getD ⟨0, 0⟩).lastCallTime
        < 1000 := by
  constructor
  · rfl
  · decide

/-- C1 (amended): whenever the test-environment bypass is inactive,
`checkRateLimit` fails with the RateLimitExceeded error exactly when
`now − lastCallTime < 1000` for the endpoint's tracker (a
first-observed endpoint reading `lastCallTime = 0`); otherwise it
records `now` as `lastCallTime` and increments `callCount`. -/
theorem checkRateLimit_quota (nodeEnv query endpoint : String) (now : Int)
    (rest : List Int) (ts : Trackers)
    (h : rateLimitBypassed nodeEnv query = false) :
    (checkRateLimit nodeEnv query endpoint (now :: rest) ts
        = (.error rateLimitExceededError, rest)
      ↔ now - ((lookupTracker ts endpoint).getD ⟨0, 0⟩).lastCallTime < 1000)
    ∧ (1000 ≤ now - ((lookupTracker ts endpoint).getD ⟨0, 0⟩).lastCallTime →
        checkRateLimit nodeEnv query endpoint (now :: rest) ts
          = (.ok (setTracker ts endpoint
              ⟨now, ((lookupTracker ts endpoint).getD ⟨0, 0⟩).callCount + 1⟩), rest)) := by
  rw [checkRateLimit_spec _ _ _ _ _ _ h]
  constructor
  · by_cases hc : now - ((lookupTracker ts endpoint).getD ⟨0, 0⟩).lastCallTime < 1000 <;>
      simp [hc]
  · intro hge
    rw [if_neg (by omega)]

/-- C1 witness: fresh endpoint, `now = 1500`, production environment. -/
theorem checkRateLimit_quota_witness :
    (checkRateLimit "production" "pizza" "web/search" [1500] []
        = (.error rateLimitExceededError, [])
      ↔ (1500 : Int) - ((lookupTracker ([] : Trackers) "web/search").getD ⟨0, 0⟩).lastCallTime
          < 1000)
    ∧ (1000 ≤ (1500 : Int) -
          ((lookupTracker ([] : Trackers) "web/search").getD ⟨0, 0⟩).lastCallTime →
        checkRateLimit "production" "pizza" "web/search" [1500] []
          = (.ok (setTracker [] "web/search"
              ⟨1500, ((lookupTracker ([] : Trackers) "web/search").getD ⟨0, 0⟩).callCount + 1⟩),
             [])) :=
  checkRateLimit_quota "production" "pizza" "web/search" 1500 [] [] (by decide)

/-- C2 (code behaviour at the claimed input): calling the handler for
`brave_web_search` with an undefined arguments object yields the
validator's "Invalid arguments for tool …" text wrapped as an internal
error — not the literal "Tool arguments are required" message the
claim (and the repository's own test) expects — with no network
activity (the world is unchanged). -/
theorem callToolHandler_missing_args_text :
    callToolHandler "brave_web_search" none sampleWorld =
      ({ content := ["Internal Server Error: Invalid arguments for tool \"brave_web_search\". Expected: \x7b query: string, count?: number, offset?: number \x7d"],
         isError := true }, sampleWorld) := by
  rfl

/-- C6: the web-search URL always carries `q` and `result_filter=web`;
`count` appears iff a number was supplied, clamped to at most 20 with
no lower clamp; `offset` appears iff a number was supplied, clamped to
[0, 9]. -/
theorem fetchWebSearchUrl_param_rules (query : String) (count offset : Option Int) :
    paramGet (fetchWebSearchUrl query count offset) "q" = some query
    ∧ paramGet (fetchWebSearchUrl query count offset) "result_filter" = some "web"
    ∧ paramGet (fetchWebSearchUrl query count offset) "count" =
        count.map (fun c => toString (min c 20))
    ∧ paramGet (fetchWebSearchUrl query count offset) "offset" =
        offset.map (fun o => toString (max 0 (min o 9))) :=
  ⟨paramGet_fetchWebSearchUrl_q query count offset,
   paramGet_fetchWebSearchUrl_filter query count offset,
   paramGet_fetchWebSearchUrl_count query count offset,
   paramGet_fetchWebSearchUrl_offset query count offset⟩

/-- C7: empty-id POI calls short-circuit with empty-shaped results and
an untouched world (no fetch, no rate-limit budget); non-empty id
lists filter out falsy ids and append each survivor as a repeated
`ids` parameter before issuing the call. -/
theorem poiFetch_empty_and_ids_params :
    (∀ w, fetchPoiDetails [] w = .ok ⟨[]⟩ w)
    ∧ (∀ w, fetchPoiDescriptions [] w = .ok ⟨[]⟩ w)
    ∧ (∀ ids, (poiDetailsUrl ids).params =
        (ids.filter truthyId).map (fun i => ("ids", i.getD "")))
    ∧ (∀ ids, (poiDescriptionsUrl ids).params =
        (ids.filter truthyId).map (fun i => ("ids", i.getD "")))
    ∧ (∀ ids w, ids ≠ [] →
        fetchPoiDetails ids w = (callBraveApi (poiDetailsUrl ids) w).map ApiData.asPois)
    ∧ (∀ ids w, ids ≠ [] →
        fetchPoiDescriptions ids w =
          (callBraveApi (poiDescriptionsUrl ids) w).map ApiData.asDescs) := by
  refine ⟨fun w => rfl, fun w => rfl, fun ids => ?_, fun ids => ?_,
    fun ids w h => ?_, fun ids w h => ?_⟩
  · simpa [poiDetailsUrl] using
      foldl_paramAppend_params (fun i => i.getD "") (ids.filter truthyId) _
  · simpa [poiDescriptionsUrl] using
      foldl_paramAppend_params (fun i => i.getD "") (ids.filter truthyId) _
  · unfold fetchPoiDetails
    rw [if_neg (by simpa [List.length_eq_zero] using h)]
  · unfold fetchPoiDescriptions
    rw [if_neg (by simpa [List.length_eq_zero] using h)]

/-- C7 witness: the repository's own mixed-id example. -/
theorem poiFetch_ids_params_witness :
    fetchPoiDetails [some "poi1", none, some "poi3"] sampleWorld =
      (callBraveApi (poiDetailsUrl [some "poi1", none, some "poi3"]) sampleWorld).map
        ApiData.asPois := by
  exact poiFetch_empty_and_ids_params.2.2.2.2.1 [some "poi1", none, some "poi3"]
    sampleWorld (by decide)

/-- C3: when the initial location search succeeds with at least one
extracted id and the POI-detail fetch or the POI-description fetch
fails, the whole local search continues as exactly one
`performWebSearch query count 0` from the post-failure world (no
retry of the failing calls; the only possible new fetch is the single
web-search URL). -/
theorem localSearch_enrichment_failure_fallback (query : String) (count : Int)
    (w : World) (d : BraveWeb) (w₁ : World)
    (hinit : fetchInitialLocalSearch query count w = .ok d w₁)
    (hne : extractLocationIds d ≠ []) :
    (∀ e w₂, fetchPoiDetails ((extractLocationIds d).map some) w₁ = .err e w₂ →
      performLocalSearch query count w = performWebSearch query count 0 w₂
      ∧ ((performLocalSearch query count w).world.fetchLog = w₂.fetchLog
         ∨ (performLocalSearch query count w).world.fetchLog =
             w₂.fetchLog ++ [fetchWebSearchUrl query (some count) (some 0)]))
    ∧ (∀ p w₂ e w₃,
        fetchPoiDetails ((extractLocationIds d).map some) w₁ = .ok p w₂ →
        fetchPoiDescriptions ((extractLocationIds d).map some) w₂ = .err e w₃ →
        performLocalSearch query count w = performWebSearch query count 0 w₃
        ∧ ((performLocalSearch query count w).world.fetchLog = w₃.fetchLog
           ∨ (performLocalSearch query count w).world.fetchLog =
               w₃.fetchLog ++ [fetchWebSearchUrl query (some count) (some 0)])) := by
  constructor
  · intro e w₂ hdet
    have hmain := performLocalSearch_details_err query count w d w₁ e w₂ hinit hne hdet
    refine ⟨hmain, ?_⟩
    rw [hmain]
    exact performWebSearch_fetchLog query count 0 w₂
  · intro p w₂ e w₃ hdet hdesc
    have hmain :=
      performLocalSearch_descs_err query count w d w₁ p w₂ e w₃ hinit hne hdet hdesc
    refine ⟨hmain, ?_⟩
    rw [hmain]
    exact performWebSearch_fetchLog query count 0 w₃

/-- The C3 witness scenario: one location id, then an HTTP 500 on the
POI-details fetch, under the test bypass. -/
def webDataOneId : BraveWeb :=
  { web := none, locations := some ⟨some [⟨some "poi1", none⟩]⟩ }

/-- Witness world for C3. -/
def worldC3 : World :=
  { nodeEnv := "test", trackers := [], clock := [],
    oracle := [.success (.web webDataOneId),
               .httpError 500 "Internal Server Error" "boom",
               .success (.web {})],
    fetchLog := [] }

/-- World after the initial location search of C3's scenario. -/
def worldC3a : World :=
  { nodeEnv := "test", trackers := [], clock := [],
    oracle := [.httpError 500 "Internal Server Error" "boom", .success (.web {})],
    fetchLog := [fetchInitialLocalSearchUrl "coffee" 5] }

/-- World after the failed POI-details fetch of C3's scenario. -/
def worldC3b : World :=
  { nodeEnv := "test", trackers := [], clock := [],
    oracle := [.success (.web {})],
    fetchLog := [fetchInitialLocalSearchUrl "coffee" 5, poiDetailsUrl [some "poi1"]] }

/-- C3 witness: the failing detail fetch degrades to the single
web-search fallback. -/
theorem localSearch_enrichment_failure_fallback_witness :
    performLocalSearch "coffee" 5 worldC3 = performWebSearch "coffee" 5 0 worldC3b :=
  ((localSearch_enrichment_failure_fallback "coffee" 5 worldC3 webDataOneId worldC3a
      rfl (by decide)).1
    (.api { message := "API request failed", status := some 500,
            details := some "Internal Server Error: boom..." })
    worldC3b rfl).1

/-- C4: a successful initial location search with zero extracted ids
makes local search degrade to exactly one web-search call with the
original query and count and offset 0; no detail/description call is
made (every fetched URL is either from before the fallback or the
single web-search URL, which under the repository's test bypass is
fetched exactly once). -/
theorem localSearch_zero_ids_fallback (query : String) (count : Int) (w : World)
    (d : BraveWeb) (w₁ : World)
    (hinit : fetchInitialLocalSearch query count w = .ok d w₁)
    (hids : extractLocationIds d = []) :
    performLocalSearch query count w = performWebSearch query count 0 w₁
    ∧ ((performLocalSearch query count w).world.fetchLog = w₁.fetchLog
       ∨ (performLocalSearch query count w).world.fetchLog =
           w₁.fetchLog ++ [fetchWebSearchUrl query (some count) (some 0)])
    ∧ (w₁.nodeEnv = "test" → jsIncludes query "req" = false →
        (performLocalSearch query count w).world.fetchLog =
          w₁.fetchLog ++ [fetchWebSearchUrl query (some count) (some 0)])
    ∧ (∀ u ∈ (performLocalSearch query count w).world.fetchLog,
        u ∈ w₁.fetchLog ∨ u = fetchWebSearchUrl query (some count) (some 0)) := by
  have hmain := performLocalSearch_zero_ids query count w d w₁ hinit hids
  refine ⟨hmain, ?_, ?_, ?_⟩
  · rw [hmain]
    exact performWebSearch_fetchLog query count 0 w₁
  · intro h1 h2
    rw [hmain]
    exact performWebSearch_test_fetchLog query count 0 w₁ h1 h2
  · intro u hu
    rw [hmain] at hu
    rcases performWebSearch_fetchLog query count 0 w₁ with h | h
    · rw [h] at hu
      exact Or.inl hu
    · rw [h] at hu
      rcases List.mem_append.1 hu with h' | h'
      · exact Or.inl h'
      · right
        simpa using h'

/-- The C4 witness scenario: a location response with an empty results
list, under the test bypass. -/
def webDataNoIds : BraveWeb := { web := none, locations := some ⟨some []⟩ }

/-- Witness world for C4. -/
def worldC4 : World :=
  { nodeEnv := "test", trackers := [], clock := [],
    oracle := [.success (.web webDataNoIds), .success (.web {})],
    fetchLog := [] }

/-- World after the initial location search of C4's scenario. -/
def worldC4a : World :=
  { nodeEnv := "test", trackers := [], clock := [],
    oracle := [.success (.web {})],
    fetchLog := [fetchInitialLocalSearchUrl "coffee" 5] }

/-- C4 witness: the zero-id local search continues as the single
web-search fallback and fetches exactly the web-search URL. -/
theorem localSearch_zero_ids_fallback_witness :
    performLocalSearch "coffee" 5 worldC4 = performWebSearch "coffee" 5 0 worldC4a
    ∧ (performLocalSearch "coffee" 5 worldC4).world.fetchLog =
        worldC4a.fetchLog ++ [fetchWebSearchUrl "coffee" (some 5) (some 0)] := by
  have h := localSearch_zero_ids_fallback "coffee" 5 worldC4 webDataNoIds worldC4a rfl rfl
  exact ⟨h.1, h.2.2.1 rfl (by decide)⟩

/-- C5: `fetchWebSearch` and `fetchInitialLocalSearch` both derive the
endpoint identifier "web/search", so they share one 1000-ms budget;
consequently, with rate limiting active (no test bypass), a
zero-id local search whose fallback web search runs less than 1000 ms
after the initial location search is rejected with the
RateLimitExceeded error. -/
theorem shared_web_search_endpoint_rate_limit :
    (∀ (q : String) (c o : Option Int),
        getEndpointFromUrl (fetchWebSearchUrl q c o) = "web/search")
    ∧ (∀ (q : String) (c : Int),
        getEndpointFromUrl (fetchInitialLocalSearchUrl q c) = "web/search")
    ∧ (∀ (query : String) (count : Int) (w : World) (d : BraveWeb)
        (t₀ t₁ : Int) (rest : List Int) (orest : List FetchOutcome),
        w.nodeEnv ≠ "test" →
        w.clock = t₀ :: t₁ :: rest →
        w.oracle = .success (.web d) :: orest →
        extractLocationIds d = [] →
        1000 ≤ t₀ - ((lookupTracker w.trackers "web/search").getD ⟨0, 0⟩).lastCallTime →
        t₁ - t₀ < 1000 →
        ∃ w', performLocalSearch query count w =
          .err (.api rateLimitExceededError) w') := by
  refine ⟨getEndpointFromUrl_fetchWebSearchUrl,
    getEndpointFromUrl_fetchInitialLocalSearchUrl, ?_⟩
  intro query count w d t₀ t₁ rest orest henv hclock horacle hids hfirst hsecond
  have hb : ∀ q' : String, rateLimitBypassed w.nodeEnv q' = false := by
    intro q'
    simp [rateLimitBypassed, henv]
  have hinit : fetchInitialLocalSearch query count w =
      .ok d { w with
        trackers := setTracker w.trackers "web/search"
          ⟨t₀, ((lookupTracker w.trackers "web/search").getD ⟨0, 0⟩).callCount + 1⟩,
        clock := t₁ :: rest, oracle := orest,
        fetchLog := w.fetchLog ++ [fetchInitialLocalSearchUrl query count] } := by
    unfold fetchInitialLocalSearch callBraveApi
    simp only [paramGet_fetchInitialLocalSearchUrl_q,
      getEndpointFromUrl_fetchInitialLocalSearchUrl, Option.getD_some]
    rw [hclock, checkRateLimit_spec _ _ _ _ _ _ (hb query), if_neg (by omega)]
    unfold doFetch
    simp [horacle, Step.map, ApiData.asWeb]
  rw [performLocalSearch_zero_ids query count w d _ hinit hids]
  refine ⟨_, performWebSearch_rateLimited query count 0 _ t₁ rest (hb query) rfl ?_⟩
  rw [lookupTracker_setTracker_self]
  simpa using hsecond

/-- Witness world for C5: fresh trackers, first call at 2000 ms,
second at 2500 ms. -/
def worldC5 : World :=
  { nodeEnv := "production", trackers := [], clock := [2000, 2500],
    oracle := [.success (.web {})], fetchLog := [] }

/-- C5 witness: the concrete fallback 500 ms after the initial search
is rejected. -/
theorem shared_web_search_endpoint_rate_limit_witness :
    ∃ w', performLocalSearch "pizza" 5 worldC5 =
      .err (.api rateLimitExceededError) w' :=
  shared_web_search_endpoint_rate_limit.2.2 "pizza" 5 worldC5 {} 2000 2500 [] []
    (by decide) rfl rfl rfl (by decide) (by decide)

/-- C8: every dispatch failure is caught and classified by the
handler: a `BraveApiError` yields "Brave API Error (<status|N/A>):
<message>[ - <details>]", any other failure yields "Internal Server
Error: <message>"; both envelope with `isError = true` and that text
as the sole content, and a non-failing dispatch envelopes with
`isError = false` (nothing escapes unformatted). -/
theorem callToolHandler_error_envelope :
    (∀ name args w e w', dispatchTool name args w = .err e w' →
      callToolHandler name args w =
        ({ content := [match e with
            | .api a =>
              "Brave API Error (" ++
                (match a.status with | some s => toString s | none => "N/A") ++ "): " ++
                a.message ++
                (match a.details with
                 | some d => if d = "" then "" else " - " ++ d
                 | none => "")
            | .generic m => "Internal Server Error: " ++ m],
           isError := true }, w'))
    ∧ (∀ name args w s w', dispatchTool name args w = .ok s w' →
        callToolHandler name args w = ({ content := [s], isError := false }, w')) := by
  constructor
  · intro name args w e w' h
    unfold callToolHandler
    rw [h]
    rcases e with a | m
    · rfl
    · rfl
  · intro name args w s w' h
    unfold callToolHandler
    rw [h]

/-- Witness world for C8: one clock tick below the budget, so the
dispatched web search throws the rate-limit `BraveApiError`. -/
def worldC8 : World :=
  { nodeEnv := "production", trackers := [], clock := [100], oracle := [],
    fetchLog := [] }

/-- C8 witness: a thrown `BraveApiError` with status 429 and no
details is formatted as claimed. -/
theorem callToolHandler_error_envelope_witness :
    callToolHandler "brave_web_search" (some (.obj [("query", .str "hi")])) worldC8 =
      ({ content := ["Brave API Error (429): Rate limit exceeded: > 1/second"],
         isError := true },
       { nodeEnv := "production", trackers := [], clock := [], oracle := [],
         fetchLog := [] }) :=
  callToolHandler_error_envelope.1 "brave_web_search"
    (some (.obj [("query", .str "hi")])) worldC8 (.api rateLimitExceededError)
    { nodeEnv := "production", trackers := [], clock := [], oracle := [],
      fetchLog := [] } rfl

/-- C9: with the rate check passed, a non-success HTTP response makes
the API call fail with a `BraveApiError` carrying the status code and
a detail string "statusText: body(≤200 chars)..." (the body part
truncated to at most 200 characters); a transport failure yields a
`BraveApiError` with no status and a message wrapping the cause. -/
theorem callBraveApi_error_classification :
    (∀ (u : Url) (w : World) (t : Int) (rest : List Int) (st : Nat)
        (stext body : String) (orest : List FetchOutcome),
        rateLimitBypassed w.nodeEnv ((paramGet u "q").getD "") = false →
        w.clock = t :: rest →
        1000 ≤ t - ((lookupTracker w.trackers (getEndpointFromUrl u)).getD
          ⟨0, 0⟩).lastCallTime →
        w.oracle = .httpError st stext body :: orest →
        callBraveApi u w =
          .err (.api { message := "API request failed", status := some st,
                       details := some (stext ++ ": " ++ jsTake body 200 ++ "...") })
            { w with
              trackers := setTracker w.trackers (getEndpointFromUrl u)
                ⟨t, ((lookupTracker w.trackers (getEndpointFromUrl u)).getD
                  ⟨0, 0⟩).callCount + 1⟩,
              clock := rest, oracle := orest, fetchLog := w.fetchLog ++ [u] })
    ∧ (∀ (u : Url) (w : World) (t : Int) (rest : List Int) (msg : String)
        (orest : List FetchOutcome),
        rateLimitBypassed w.nodeEnv ((paramGet u "q").getD "") = false →
        w.clock = t :: rest →
        1000 ≤ t - ((lookupTracker w.trackers (getEndpointFromUrl u)).getD
          ⟨0, 0⟩).lastCallTime →
        w.oracle = .networkError msg :: orest →
        callBraveApi u w =
          .err (.api { message := "Network error calling Brave API: " ++ msg,
                       status := none, details := none })
            { w with
              trackers := setTracker w.trackers (getEndpointFromUrl u)
                ⟨t, ((lookupTracker w.trackers (getEndpointFromUrl u)).getD
                  ⟨0, 0⟩).callCount + 1⟩,
              clock := rest, oracle := orest, fetchLog := w.fetchLog ++ [u] })
    ∧ (∀ body : String, (jsTake body 200).length ≤ 200) := by
  refine ⟨?_, ?_, ?_⟩
  · intro u w t rest st stext body orest hb hclock hge horacle
    unfold callBraveApi
    simp only [hclock]
    rw [checkRateLimit_spec _ _ _ _ _ _ hb, if_neg (by omega)]
    unfold doFetch
    simp [horacle]
  · intro u w t rest msg orest hb hclock hge horacle
    unfold callBraveApi
    simp only [hclock]
    rw [checkRateLimit_spec _ _ _ _ _ _ hb, if_neg (by omega)]
    unfold doFetch
    simp [horacle]
  · intro body
    show (body.data.take 200).length ≤ 200
    simp

/-- Witness world for C9: an HTTP 401 outcome queued behind a passing
rate check. -/
def worldC9 : World :=
  { nodeEnv := "production", trackers := [], clock := [5000],
    oracle := [.httpError 401 "Unauthorized" "Bad Key"], fetchLog := [] }

/-- C9 witness: the concrete 401 response maps to the status-carrying
upstream error with the truncated detail string. -/
theorem callBraveApi_error_classification_witness :
    callBraveApi (fetchWebSearchUrl "q1" none none) worldC9 =
      .err (.api { message := "API request failed", status := some 401,
                   details := some ("Unauthorized" ++ ": " ++ jsTake "Bad Key" 200 ++ "...") })
        { worldC9 with
          trackers := setTracker worldC9.trackers
            (getEndpointFromUrl (fetchWebSearchUrl "q1" none none))
            ⟨5000, ((lookupTracker worldC9.trackers
              (getEndpointFromUrl (fetchWebSearchUrl "q1" none none))).getD
                ⟨0, 0⟩).callCount + 1⟩,
          clock := [], oracle := [],
          fetchLog := worldC9.fetchLog ++ [fetchWebSearchUrl "q1" none none] } :=
  callBraveApi_error_classification.1 (fetchWebSearchUrl "q1" none none) worldC9
    5000 [] 401 "Unauthorized" "Bad Key" [] (by decide) rfl (by decide) rfl

/-- C10: validation failures and unknown-tool failures are raised as
generic `Error`s inside the handler, so their response text always
carries the "Internal Server Error: " prefix — indistinguishable by
category from internal failures. -/
theorem local_failures_internal_text :
    (∀ name args w, name ≠ "brave_web_search" → name ≠ "brave_local_search" →
        name ≠ "brave_poi_details" → name ≠ "brave_poi_descriptions" →
        callToolHandler name args w =
          ({ content := ["Internal Server Error: Unknown tool requested: " ++ name],
             isError := true }, w))
    ∧ (∀ args w, isBraveWebSearchArgs args = false →
        callToolHandler "brave_web_search" args w =
          ({ content := ["Internal Server Error: Invalid arguments for tool \"brave_web_search\". Expected: \x7b query: string, count?: number, offset?: number \x7d"],
             isError := true }, w))
    ∧ (∀ args w, isBraveLocalSearchArgs args = false →
        callToolHandler "brave_local_search" args w =
          ({ content := ["Internal Server Error: Invalid arguments for tool \"brave_local_search\". Expected: \x7b query: string, count?: number \x7d"],
             isError := true }, w))
    ∧ (∀ args w, isBravePoiDetailsArgs args = false →
        callToolHandler "brave_poi_details" args w =
          ({ content := ["Internal Server Error: Invalid arguments for tool \"brave_poi_details\". Expected: \x7b ids: string[] \x7d"],
             isError := true }, w))
    ∧ (∀ args w, isBravePoiDescriptionsArgs args = false →
        callToolHandler "brave_poi_descriptions" args w =
          ({ content := ["Internal Server Error: Invalid arguments for tool \"brave_poi_descriptions\". Expected: \x7b ids: string[] \x7d"],
             isError := true }, w)) := by
  refine ⟨fun name args w h1 h2 h3 h4 => ?_, fun args w h => ?_, fun args w h => ?_,
    fun args w h => ?_, fun args w h => ?_⟩
  · simp [callToolHandler, dispatchTool, errorText, h1, h2, h3, h4]
    rw [← string_append_assoc]
    rfl
  · simp [callToolHandler, dispatchTool, errorText, h]
  · simp [callToolHandler, dispatchTool, errorText, h]
  · simp [callToolHandler, dispatchTool, errorText, h]
  · simp [callToolHandler, dispatchTool, errorText, h]

/-- C10 witness: an unknown tool name and a failing web-search
validation both surface with the internal-error prefix. -/
theorem local_failures_internal_text_witness :
    callToolHandler "mystery_tool" none sampleWorld =
      ({ content := ["Internal Server Error: Unknown tool requested: " ++ "mystery_tool"],
         isError := true }, sampleWorld)
    ∧ callToolHandler "brave_local_search" none sampleWorld =
      ({ content := ["Internal Server Error: Invalid arguments for tool \"brave_local_search\". Expected: \x7b query: string, count?: number \x7d"],
         isError := true }, sampleWorld) :=
  ⟨local_failures_internal_text.1 "mystery_tool" none sampleWorld (by decide)
      (by decide) (by decide) (by decide),
   local_failures_internal_text.2.2.1 none sampleWorld rfl⟩

end BraveSearch


